import Mathlib

/-!
Shallow embedding of the credential/session/token lifecycle of the
`outlook_graphapi` repository.

Sources embedded:
- `src/models/database.py`  (class `UserCredentialsDB`): the Credential Store,
  backed by three relational tables (`user_credentials`, `user_sessions`,
  `api_keys`).  The tables are modelled as lists of records; SQL `SELECT ...
  fetchone()` becomes `List.find?` (keys `user_id`, `session_token`, `api_key`
  are UNIQUE, so at most one row matches), `UPDATE ... WHERE` becomes
  `List.map` with a key test, `INSERT` appends.  Audit columns
  (`created_at` / `updated_at`) are not modelled: no operation reads them.
- `src/providers/outlook.py` (class `OutlookProvider`): OAuth helpers.  The
  network responses of the external endpoints (the identity provider's token
  endpoint, Microsoft Graph) are parameters of the embedded functions, so each
  function is a pure function of the state, its arguments and the response.
- `src/services/auth_service.py` (class `AuthService`).
- `src/auth/dependencies.py` (`get_access_token_with_refresh` and helpers).

Python `datetime` values are modelled as `Int` timestamps in seconds
(`datetime.utcnow()` is a `now : Int` parameter; `timedelta(minutes=5)` is
`300`, `timedelta(hours=24)` is `86400`, `timedelta(seconds=n)` is `n`);
`datetime` subtraction/comparison is `Int` subtraction/comparison.  Randomly
generated tokens (`secrets.token_urlsafe`) are parameters.  Python `dict`
payloads whose value types mix strings, datetimes and `None` are modelled as
association lists over `PyVal`; `dict.get` returns `PyVal.vnone` for an
absent key, exactly like Python's `None` default.
-/

namespace OutlookGraph

/-- Value of a Python dict entry in the token/user payloads: `None`, a string,
a datetime (or its `isoformat` string), or an int. -/
inductive PyVal where
  | vnone
  | vstr (s : String)
  | vtime (t : Int)
  | vint (n : Int)
deriving DecidableEq, Repr

/-- Python truthiness for the values that appear in the embedded payloads:
`None` is falsy, `""` is falsy, `0` is falsy, datetimes are truthy. -/
def PyVal.truthy : PyVal → Bool
  | .vnone => false
  | .vstr s => !(s == "")
  | .vtime _ => true
  | .vint n => !(n == 0)

/-- Python truthiness of an optional string (`None` and `""` are falsy). -/
def optStrTruthy : Option String → Bool
  | none => false
  | some s => !(s == "")

/-- Lookup in a Python dict: `some v` when the key is present with value `v`. -/
def dictGetOpt (d : List (String × PyVal)) (k : String) : Option PyVal :=
  (d.find? (fun p => p.1 == k)).map (fun p => p.2)

/-- Python `dict.get(k)`: `None` when the key is absent. -/
def dictGet (d : List (String × PyVal)) (k : String) : PyVal :=
  (dictGetOpt d k).getD PyVal.vnone

/-- Python `k in dict`: whether the key is present at all. -/
def dictHasKey (d : List (String × PyVal)) (k : String) : Bool :=
  (d.find? (fun p => p.1 == k)).isSome

/-- Coerce a payload value to the string stored in a `TEXT NOT NULL` column. -/
def pyvalToStr : PyVal → String
  | .vstr s => s
  | _ => ""

/-- Coerce a payload value to the optional string stored in a nullable
`TEXT` column (`None` stays `NULL`). -/
def pyvalToOptStr : PyVal → Option String
  | .vstr s => some s
  | _ => none

/-- Wrap a nullable column value back into a payload value. -/
def optStrToPyVal : Option String → PyVal
  | none => PyVal.vnone
  | some s => PyVal.vstr s

/-! Data model: the three tables of `src/models/database.py` (init_database). -/

/-- Row of the `user_credentials` table. -/
structure Credential where
  user_id : String
  email : String
  display_name : String
  access_token : String
  refresh_token : Option String
  token_expires_at : Int
  is_active : Bool
deriving DecidableEq, Repr

/-- Row of the `user_sessions` table. -/
structure Session where
  session_token : String
  user_id : String
  expires_at : Int
  is_active : Bool
deriving DecidableEq, Repr

/-- Row of the `api_keys` table. -/
structure ApiKey where
  api_key : String
  user_id : String
  name : String
  last_used_at : Option Int
  is_active : Bool
deriving DecidableEq, Repr

/-- The persistent state managed by `UserCredentialsDB`. -/
structure DBState where
  credentials : List Credential
  sessions : List Session
  api_keys : List ApiKey
deriving DecidableEq, Repr

/-- The empty database (all three tables empty). -/
def dbEmpty : DBState := { credentials := [], sessions := [], api_keys := [] }

/-! Credential Store operations (`src/models/database.py`). -/

/-- Fields of the service-level `tokens` dict built by
`AuthService.exchange_code_for_tokens` (the constant `token_type: "Bearer"`
entry is not modelled: nothing reads it). -/
structure Tokens where
  access_token : PyVal
  refresh_token : PyVal
  expires_in : Int
deriving DecidableEq, Repr

/-- The `user_id` derivation of `save_user_credentials` (database.py:133):
`user_info.get('id') or user_info.get('userPrincipalName', '').split('@')[0]`,
with Python `or` falling through on an absent or empty `id`.  The first
chunk of a single-character split is the longest prefix containing no
separator, embedded as a `takeWhile` over the characters (on the empty
string Python yields `[''][0] = ''`, and so does the `takeWhile`). -/
def derive_user_id (user_info : List (String × String)) : String :=
  let upn_local := String.mk
    (((((user_info.find? (fun p => p.1 == "userPrincipalName")).map
        (fun p => p.2)).getD "").data).takeWhile (fun ch => ch != '@'))
  match (user_info.find? (fun p => p.1 == "id")).map (fun p => p.2) with
  | some s => if s == "" then upn_local else s
  | none => upn_local

/-- The `email` derivation of `save_user_credentials` (database.py:134):
`user_info.get('mail') or user_info.get('userPrincipalName', '')`. -/
def derive_email (user_info : List (String × String)) : String :=
  let upn :=
    ((user_info.find? (fun p => p.1 == "userPrincipalName")).map
      (fun p => p.2)).getD ""
  match (user_info.find? (fun p => p.1 == "mail")).map (fun p => p.2) with
  | some s => if s == "" then upn else s
  | none => upn

/-- The `INSERT ... ON CONFLICT (user_id) DO UPDATE` of
`save_user_credentials` (database.py:141-159) on the `user_credentials`
table: when a row with the key exists, overwrite its
email/display_name/tokens/expiry (leaving `is_active` untouched); otherwise
insert a fresh row, active by the column default. -/
def upsert_credential (l : List Credential) (user_id email display_name : String)
    (access : String) (refresh : Option String) (expires_at : Int) :
    List Credential :=
  if l.any (fun c => c.user_id == user_id) then
    l.map (fun c =>
      if c.user_id == user_id then
        { c with email := email, display_name := display_name,
                 access_token := access, refresh_token := refresh,
                 token_expires_at := expires_at }
      else c)
  else
    l ++ [{ user_id := user_id, email := email, display_name := display_name,
            access_token := access, refresh_token := refresh,
            token_expires_at := expires_at, is_active := true }]

/-- `UserCredentialsDB.save_user_credentials` (database.py:131-163): derives
the identity fields, computes
`token_expires_at = utcnow() + tokens.get('expires_in', 3600)` and upserts
the row keyed by `user_id`.  Returns the new state together with the derived
`user_id`. -/
def save_user_credentials (st : DBState) (user_info : List (String × String))
    (tokens : Tokens) (now : Int) : DBState × String :=
  let user_id := derive_user_id user_info
  let email := derive_email user_info
  let display_name :=
    ((user_info.find? (fun p => p.1 == "displayName")).map (fun p => p.2)).getD ""
  let expires_at := now + tokens.expires_in
  ({ st with credentials := (upsert_credential st.credentials user_id email
      display_name (pyvalToStr tokens.access_token)
      (pyvalToOptStr tokens.refresh_token) expires_at) }, user_id)

/-- `UserCredentialsDB.create_session` (database.py:165-179): inserts an
active `user_sessions` row with `expires_at = utcnow() + 24 hours` (the
default `duration_hours = 24`).  The freshly generated
`secrets.token_urlsafe(32)` value is the `session_token` parameter. -/
def create_session (st : DBState) (user_id : String) (session_token : String)
    (now : Int) : DBState × String :=
  ({ st with sessions := st.sessions ++
      [{ session_token := session_token, user_id := user_id,
         expires_at := now + 86400, is_active := true }] }, session_token)

/-- The row produced by the `SELECT ... FROM user_sessions s JOIN
user_credentials u ON s.user_id = u.user_id WHERE s.session_token = %s AND
s.is_active = TRUE AND u.is_active = TRUE ... fetchone()` query of
`validate_session` (database.py:185-192). -/
def findSessionJoin (st : DBState) (session_token : String) :
    Option (Session × Credential) :=
  (st.sessions.find? (fun s => s.session_token == session_token && s.is_active)).bind
    (fun s =>
      (st.credentials.find? (fun u => u.user_id == s.user_id && u.is_active)).map
        (fun u => (s, u)))

/-- `UserCredentialsDB.invalidate_session` (database.py:290-298):
`UPDATE user_sessions SET is_active = FALSE WHERE session_token = %s`. -/
def invalidate_session (st : DBState) (session_token : String) : DBState :=
  { st with sessions := st.sessions.map (fun s =>
      if s.session_token == session_token then { s with is_active := false } else s) }

/-- The user-info dict returned by a successful `validate_session`
(database.py:201-207).  Note the projection: it carries `user_id`, `email`,
`display_name`, `access_token` and `token_expires_at`, and nothing else —
in particular no `refresh_token` key. -/
def session_user_dict (s : Session) (u : Credential) : List (String × PyVal) :=
  [("user_id", PyVal.vstr s.user_id),
   ("email", PyVal.vstr u.email),
   ("display_name", PyVal.vstr u.display_name),
   ("access_token", PyVal.vstr u.access_token),
   ("token_expires_at", PyVal.vtime u.token_expires_at)]

/-- `UserCredentialsDB.validate_session` (database.py:181-207): joins the
session to its credential (both must be active); an expired session is
invalidated as a side effect and yields `none`; otherwise the projection
`session_user_dict` is returned and the state is unchanged. -/
def validate_session (st : DBState) (session_token : String) (now : Int) :
    Option (List (String × PyVal)) × DBState :=
  match findSessionJoin st session_token with
  | none => (none, st)
  | some (s, u) =>
    if s.expires_at < now then
      (none, invalidate_session st session_token)
    else
      (some (session_user_dict s u), st)

/-- `UserCredentialsDB.generate_api_key` (database.py:209-222): inserts an
active `api_keys` row; the generated `ok_`-prefixed token is a parameter. -/
def generate_api_key (st : DBState) (user_id : String) (name : String)
    (api_key : String) : DBState × String :=
  ({ st with api_keys := st.api_keys ++
      [{ api_key := api_key, user_id := user_id, name := name,
         last_used_at := none, is_active := true }] }, api_key)

/-- `UserCredentialsDB.validate_api_key` (database.py:224-253): joins the key
to its credential (both active), updates `last_used_at` as a side effect of a
successful validation, and returns a projection that — unlike
`session_user_dict` — does include `refresh_token`. -/
def validate_api_key (st : DBState) (api_key : String) (now : Int) :
    Option (List (String × PyVal)) × DBState :=
  match st.api_keys.find? (fun a => a.api_key == api_key && a.is_active) with
  | none => (none, st)
  | some a =>
    match st.credentials.find? (fun u => u.user_id == a.user_id && u.is_active) with
    | none => (none, st)
    | some u =>
      let st' := { st with api_keys := st.api_keys.map (fun b =>
          if b.api_key == api_key then { b with last_used_at := some now } else b) }
      (some [("user_id", PyVal.vstr u.user_id),
             ("email", PyVal.vstr u.email),
             ("display_name", PyVal.vstr u.display_name),
             ("access_token", PyVal.vstr u.access_token),
             ("refresh_token", optStrToPyVal u.refresh_token),
             ("token_expires_at", PyVal.vtime u.token_expires_at)], st')

/-- `UserCredentialsDB.update_tokens` (database.py:270-288): recomputes
`token_expires_at = utcnow() + expires_in` and overwrites the token fields of
the user's row; when the `refresh_token` argument is falsy (Python `if
refresh_token:`) the stored refresh token is left untouched. -/
def update_tokens (st : DBState) (user_id : String) (access_token : String)
    (refresh_token : Option String) (expires_in : Int) (now : Int) : DBState :=
  let expires_at := now + expires_in
  if optStrTruthy refresh_token then
    { st with credentials := st.credentials.map (fun c =>
        if c.user_id == user_id then
          { c with access_token := access_token, refresh_token := refresh_token,
                   token_expires_at := expires_at }
        else c) }
  else
    { st with credentials := st.credentials.map (fun c =>
        if c.user_id == user_id then
          { c with access_token := access_token, token_expires_at := expires_at }
        else c) }

/-- `UserCredentialsDB.revoke_api_key` (database.py:300-308):
`UPDATE api_keys SET is_active = FALSE WHERE api_key = %s` — a soft
deactivation, no row is deleted. -/
def revoke_api_key (st : DBState) (api_key : String) : DBState :=
  { st with api_keys := st.api_keys.map (fun a =>
      if a.api_key == api_key then { a with is_active := false } else a) }

/-! OAuth provider (`src/providers/outlook.py`, class `OutlookProvider`).
The responses of the external HTTP endpoints are parameters. -/

/-- JSON body returned by the identity provider's token endpoint (both the
authorization-code grant, via `msal`'s `acquire_token_by_authorization_code`,
and the refresh grant): the three fields the code reads, each possibly
absent. -/
structure TokenResponse where
  access_token : Option String
  refresh_token : Option String
  expires_in : Option Int
deriving DecidableEq, Repr

/-- The `ToolOAuthCredentials` record of `dify_plugin` as the provider builds
it: a credentials dict plus an absolute expiry. -/
structure ToolOAuthCredentials where
  credentials : List (String × PyVal)
  expires_at : Int
deriving DecidableEq, Repr

/-- The fixed scope set `OutlookProvider._SCOPES` (outlook.py:17). -/
def SCOPES : List String := ["User.Read", "Mail.Read", "Mail.Send", "Mail.ReadWrite"]

/-- The redirect URI hard-coded in `_oauth_get_authorization_url`
(outlook.py:51). -/
def DIFY_CALLBACK_URI : String :=
  "https://cloud.dify.ai/console/api/oauth/plugin/langgenius/outlook/outlook/tool/callback"

/-- The default of `config.REDIRECT_URI` (config.py:20); the configured
redirect URI of the deployment. -/
def REDIRECT_URI_DEFAULT : String := "https://localhost:8000/client/callback"

/-- Record of the parameters that `msal`'s `get_authorization_request_url`
embeds into the authorization URL it builds.  Modelled from the spec: the
builder itself lives in the external `msal` library; what the repository
controls — and what the spec speaks about — is which client id, scopes and
redirect URI are passed to it, so the URL is modelled as that record. -/
structure AuthRequestUrl where
  client_id : String
  scopes : List String
  redirect_uri : String
deriving DecidableEq, Repr

/-- `OutlookProvider._oauth_get_authorization_url` (outlook.py:44-56): builds
the authorization URL from `_SCOPES` and the hard-coded
`DIFY_CALLBACK_URI`, ignoring the `redirect_uri` argument.  The emptiness
check on the produced URL (outlook.py:53) can never fire — the builder always
embeds a non-empty authority — so the function always succeeds. -/
def oauth_get_authorization_url (client_id : String) (redirect_uri : String) :
    Except String AuthRequestUrl :=
  .ok { client_id := client_id, scopes := SCOPES, redirect_uri := DIFY_CALLBACK_URI }

/-- `OutlookProvider._oauth_get_credentials` (outlook.py:58-79): rejects an
empty/absent code, rejects a token response lacking a truthy access or
refresh token, and otherwise packages exactly those two tokens into the
credentials dict (note: `expires_in` is *not* put into the dict; it only
feeds the separate absolute `expires_at`, defaulting to 3599). -/
def oauth_get_credentials (code : Option String) (resp : TokenResponse)
    (now : Int) : Except String ToolOAuthCredentials :=
  if !(optStrTruthy code) then
    .error "No authorization code provided"
  else if !(optStrTruthy resp.access_token) then
    .error "Failed to obtain access token from authorization code."
  else if !(optStrTruthy resp.refresh_token) then
    .error "Failed to obtain refresh token from authorization code."
  else
    .ok { credentials :=
            [("access_token", PyVal.vstr (resp.access_token.getD "")),
             ("refresh_token", PyVal.vstr (resp.refresh_token.getD ""))],
          expires_at := resp.expires_in.getD 3599 + now }

/-- `OutlookProvider.oauth_refresh_credentials` (outlook.py:81-126): POST to
the token endpoint with the refresh grant; the outcome of that network call
is the parameter. -/
inductive RefreshHttpResult where
  | response (code : Int) (token_data : TokenResponse)
  | httpError (body : String)
  | netError
deriving DecidableEq, Repr

/-- Embeds `oauth_refresh_credentials`: any HTTP error or network failure is
an error; a 200 response must carry truthy access and refresh tokens, which
are packaged like in `oauth_get_credentials`. -/
def oauth_refresh_credentials (r : RefreshHttpResult) (now : Int) :
    Except String ToolOAuthCredentials :=
  match r with
  | .httpError body => .error ("Token refresh failed: " ++ body)
  | .netError => .error "Network error during token refresh"
  | .response code td =>
    if code ≠ 200 then .error "Token refresh failed: HTTP non-200"
    else if !(optStrTruthy td.access_token) || !(optStrTruthy td.refresh_token) then
      .error "No access token or refresh token in response"
    else
      .ok { credentials :=
              [("access_token", PyVal.vstr (td.access_token.getD "")),
               ("refresh_token", PyVal.vstr (td.refresh_token.getD ""))],
            expires_at := td.expires_in.getD 3599 + now }

/-- Outcome of the authenticated GET to the resource API's current-user
endpoint (`https://graph.microsoft.com/v1.0/me`): `urllib.request.urlopen`
either returns a response (2xx/3xx) with a status code, raises `HTTPError`
(carrying the error status, e.g. 401), or raises some other exception
(network failure). -/
inductive HttpResult where
  | response (code : Int)
  | httpError (code : Int)
  | netError
deriving DecidableEq, Repr

/-- `OutlookProvider._validate_credentials` (outlook.py:22-42): requires a
truthy access token, then calls the current-user endpoint; every branch that
is not a 200 response raises `ToolProviderCredentialValidationError`. -/
def validate_credentials (access_token : Option String) (r : HttpResult) :
    Except String Unit :=
  if !(optStrTruthy access_token) then
    .error "Microsoft Graph access token is required."
  else
    match r with
    | .response code =>
      if code ≠ 200 then .error "Invalid or expired access token." else .ok ()
    | .httpError code =>
      if code = 401 then .error "Invalid or expired access token."
      else .error "Failed to validate credentials"
    | .netError => .error "Network error during validation"

/-! Auth service (`src/services/auth_service.py`, class `AuthService`). -/

/-- Result dict of `AuthService.get_authorization_url` (auth_service.py:31):
the provider URL plus the configured `REDIRECT_URI`. -/
structure AuthUrlResult where
  authorization_url : AuthRequestUrl
  redirect_uri : String
deriving DecidableEq, Repr

/-- The `TypeError` Python raises when a required positional argument is
missing at a call.  Every call the service layer makes into the provider's
OAuth methods omits their required `system_credentials` parameter
(auth_service.py:26, :41 and :88 against outlook.py:44, :58 and :81; the
router call sites repeat the same arity), so each of those calls raises this
error before the method body runs. -/
def typeErrorMissingSystemCredentials (method : String) : String :=
  "TypeError: " ++ method ++
    " missing 1 required positional argument: system_credentials"

/-- `AuthService.get_authorization_url` (auth_service.py:23-35): the call at
auth_service.py:26 passes only `redirect_uri` to
`_oauth_get_authorization_url`, whose signature (outlook.py:44) also
requires `system_credentials`; Python raises `TypeError` at the call, the
`except` block logs and re-raises, so the function fails on every input and
never returns a URL.  The parameters are kept to state what the claim
quantifies over (they never influence the outcome). -/
def get_authorization_url (client_id : String) (redirect_uri_cfg : String) :
    Except String AuthUrlResult :=
  .error (typeErrorMissingSystemCredentials "_oauth_get_authorization_url")

/-- Outcome of the GET to `https://graph.microsoft.com/v1.0/me` made by
`AuthService.get_user_info` via `httpx` (a status code with a JSON body of
string fields, or a network failure). -/
inductive ProfileResult where
  | status (code : Int) (body : List (String × String))
  | netError
deriving DecidableEq, Repr

/-- The placeholder identity returned when the profile fetch fails
(auth_service.py:78 and :81). -/
def placeholder_user_info : List (String × String) :=
  [("mail", "unknown@example.com"), ("displayName", "Unknown User")]

/-- `AuthService.get_user_info` (auth_service.py:68-81): the profile JSON on
a 200 response, the placeholder identity on any other status or on a network
error — the failure is swallowed, never raised. -/
def get_user_info (p : ProfileResult) : List (String × String) :=
  match p with
  | .status code body => if code = 200 then body else placeholder_user_info
  | .netError => placeholder_user_info

/-- Result dict of `AuthService.exchange_code_for_tokens`
(auth_service.py:57-62). -/
structure ExchangeResult where
  user_id : String
  session_token : String
  user_info : List (String × String)
  access_token : PyVal
  refresh_token : PyVal
  expires_in : Int
deriving DecidableEq, Repr

/-- `AuthService.exchange_code_for_tokens` (auth_service.py:37-66): its very
first step, the call at auth_service.py:41, passes only `redirect_uri` and
`code` to `_oauth_get_credentials`, whose signature (outlook.py:58-60) also
requires `system_credentials`; Python raises `TypeError` at the call —
before the provider body, the token exchange, the profile fetch or any
database write — and the `except` block at auth_service.py:64-66 logs and
re-raises.  So the function fails for every input, persists no credential
and creates no session (an error outcome carries no state: the exception
propagates before any write, leaving the database untouched).  The
parameters — the provider token response the endpoint would have produced,
the profile response, the generated session token and the clock — are kept
to state what the claims quantify over; they never influence the outcome. -/
def exchange_code_for_tokens (st : DBState) (code : Option String)
    (resp : TokenResponse) (profile : ProfileResult) (new_session_token : String)
    (now : Int) : Except String (ExchangeResult × DBState) :=
  .error (typeErrorMissingSystemCredentials "_oauth_get_credentials")

/-- Result dict of `AuthService.refresh_access_token`
(auth_service.py:93-98). -/
structure RefreshedTokens where
  access_token : PyVal
  refresh_token : PyVal
  expires_at : Int
deriving DecidableEq, Repr

/-- `AuthService.refresh_access_token` (auth_service.py:83-102): the call at
auth_service.py:88 passes only `redirect_uri` and `credentials` to
`oauth_refresh_credentials`, whose signature (outlook.py:81-83) also
requires `system_credentials`; Python raises `TypeError` at the call —
before any token-endpoint request is made — and the `except` block at
auth_service.py:100-102 logs and re-raises.  So the refresh fails for every
input.  The parameters (what the token endpoint would have answered, and
the clock) are kept to state what the claims quantify over; they are never
consulted. -/
def refresh_access_token (r : RefreshHttpResult) (now : Int) :
    Except String RefreshedTokens :=
  .error (typeErrorMissingSystemCredentials "oauth_refresh_credentials")

/-- `AuthService.validate_access_token` (auth_service.py:104-115): `true`
exactly when `_validate_credentials` raises nothing; every exception —
including network failures — is caught and mapped to `false` (the function
returns the dict `{"valid": bool}`; only the boolean is modelled). -/
def validate_access_token (access_token : Option String) (r : HttpResult) : Bool :=
  match validate_credentials access_token r with
  | .ok _ => true
  | .error _ => false

/-! Request-level token resolution (`src/auth/dependencies.py`). -/

/-- The refresh-and-persist block of `get_access_token_with_refresh`
(dependencies.py:66-76): refresh via the auth service, then
`update_tokens(user_id, new access, new_tokens.get("refresh_token",
refresh_token), expires_in=3600)`.  A refresh failure raises
`HTTPException(401)` (dependencies.py:77-82), modelled as `.error`, and
leaves the state untouched.  Because `refresh_access_token` raises
`TypeError` on every call (see its embedding), the error branch is the one
this block always takes: the update half of the block is dead code. -/
def refresh_and_update (st : DBState) (user_id : String)
    (r : RefreshHttpResult) (now : Int) : Except Unit (String × DBState) :=
  match refresh_access_token r now with
  | .error _ => .error ()
  | .ok nt =>
    let new_access := pyvalToStr nt.access_token
    let new_refresh := pyvalToOptStr nt.refresh_token
    .ok (new_access, update_tokens st user_id new_access new_refresh 3600 now)

/-- `fromisoformat` applied to the `token_expires_at` payload value
(dependencies.py:60): parses a datetime value; anything else (in particular
`None`) raises, landing in the `except` branch that returns `None`. -/
def fromisoformat : PyVal → Option Int
  | .vtime t => some t
  | _ => none

/-- `get_access_token_with_refresh` (dependencies.py:45-83) together with its
helper `get_current_user` (dependencies.py:38-43): resolve the session cookie
via `validate_session`, bail out with `None` when any of `access_token`,
`refresh_token`, `token_expires_at`, `user_id` is missing/falsy in the
resolved user data, refresh when less than 5 minutes (300 s) remain,
otherwise return the stored access token.  `.error ()` is the
`HTTPException(401)` raised when a refresh fails; the token-endpoint outcome
for the (potential) refresh call is the `renv` parameter. -/
def get_access_token_with_refresh (st : DBState) (cookie : Option String)
    (now : Int) (renv : RefreshHttpResult) :
    Except Unit (Option String) × DBState :=
  match cookie with
  | none => (.ok none, st)
  | some session_token =>
    match validate_session st session_token now with
    | (none, st') => (.ok none, st')
    | (some user_data, st') =>
      let access := dictGet user_data "access_token"
      let refresh := dictGet user_data "refresh_token"
      let texp := dictGet user_data "token_expires_at"
      let uid := dictGet user_data "user_id"
      if !(PyVal.truthy access) || !(PyVal.truthy refresh)
          || !(PyVal.truthy texp) || !(PyVal.truthy uid) then
        (.ok none, st')
      else
        match fromisoformat texp with
        | none => (.ok none, st')
        | some expires_at =>
          if expires_at - now < 300 then
            match refresh_and_update st' (pyvalToStr uid) renv now with
            | .error _ => (.error (), st')
            | .ok (tok, st2) => (.ok (some tok), st2)
          else
            (.ok (some (pyvalToStr access)), st')

/-! Helper lemmas. -/

/-- Rewriting the keys of a `revoke_api_key` update away: deactivation does
not change which `api_key` values are present. -/
lemma map_key_revoke (k : String) (l : List ApiKey) :
    (l.map (fun a => if a.api_key == k then { a with is_active := false } else a)).map
        ApiKey.api_key = l.map ApiKey.api_key := by
  rw [List.map_map]
  refine List.map_congr_left ?_
  intro a _
  by_cases h : a.api_key = k <;> simp [h]

/-! Claim C5. -/

/-- C5: for every user and every pair of `update_tokens` calls with different
access tokens (the second providing a truthy refresh token, as the claim's
"the later call's refresh token" presupposes), every credential row of that
user afterwards carries exactly the later call's access token, refresh token
and recomputed expiry — last-writer-wins overwrite semantics. -/
theorem C5_update_tokens_last_writer_wins (st : DBState) (uid a1 a2 r2 : String)
    (r1 : Option String) (e1 e2 t1 t2 : Int) (hdiff : a1 ≠ a2) (hr2 : r2 ≠ "") :
    ∀ c ∈ (update_tokens (update_tokens st uid a1 r1 e1 t1) uid a2 (some r2) e2 t2).credentials,
      c.user_id = uid →
        c.access_token = a2 ∧ c.refresh_token = some r2 ∧ c.token_expires_at = t2 + e2 := by
  intro c hc hcid
  have hr2' : optStrTruthy (some r2) = true := by
    simp [optStrTruthy, hr2]
  simp only [update_tokens, hr2', if_pos] at hc
  obtain ⟨c₀, hmem, rfl⟩ := List.mem_map.mp hc
  cases h : c₀.user_id == uid with
  | true => simp [h]
  | false =>
    simp only [h, if_neg, Bool.false_eq_true, not_false_eq_true] at hcid
    exact absurd hcid (by simpa using (beq_eq_false_iff_ne.mp h))

/-- Concrete state for the C5 witness: one stored credential for user `u`. -/
def stC5 : DBState :=
  { credentials := [{ user_id := "u", email := "e", display_name := "d",
                      access_token := "A0", refresh_token := some "R0",
                      token_expires_at := 100, is_active := true }],
    sessions := [], api_keys := [] }

/-- The credential row of `u` after the two C5 witness updates. -/
def credC5 : Credential :=
  ((update_tokens (update_tokens stC5 "u" "A1" (some "R1") 3600 0)
      "u" "A2" (some "R2") 7200 50).credentials).headD
    { user_id := "", email := "", display_name := "", access_token := "",
      refresh_token := none, token_expires_at := 0, is_active := false }

/-- Witness for C5 at a concrete state and pair of calls. -/
theorem C5_update_tokens_last_writer_wins_witness :
    credC5.access_token = "A2" ∧ credC5.refresh_token = some "R2" ∧
      credC5.token_expires_at = 50 + 7200 :=
  C5_update_tokens_last_writer_wins stC5 "u" "A1" "A2" "R2" (some "R1") 3600 7200 0 50
    (by decide) (by decide) credC5 (by decide) (by decide)

/-! Claim C6. -/

/-- C6: after `revoke_api_key`, every `validate_api_key` call with that key
returns absent; revocation is a soft-deactivation — the multiset of stored
`api_key` values (hence every row) is retained, only `is_active` of the
matching rows becomes false. -/
theorem C6_revoke_api_key_soft (st : DBState) (k : String) (now : Int) :
    (validate_api_key (revoke_api_key st k) k now).1 = none ∧
    (revoke_api_key st k).api_keys.map ApiKey.api_key = st.api_keys.map ApiKey.api_key ∧
    (revoke_api_key st k).api_keys.length = st.api_keys.length ∧
    ((revoke_api_key st k).api_keys.all
      (fun a => !(a.api_key == k) || !a.is_active)) = true := by
  refine ⟨?_, ?_, ?_, ?_⟩
  · have hfind : ((revoke_api_key st k).api_keys.find?
        (fun a => a.api_key == k && a.is_active)) = none := by
      rw [List.find?_eq_none]
      intro x hx
      simp only [revoke_api_key] at hx
      obtain ⟨a, _, rfl⟩ := List.mem_map.mp hx
      cases h : a.api_key == k <;> simp [h]
    simp [validate_api_key, hfind]
  · simpa [revoke_api_key] using map_key_revoke k st.api_keys
  · simp [revoke_api_key]
  · rw [List.all_eq_true]
    intro x hx
    simp only [revoke_api_key] at hx
    obtain ⟨a, _, rfl⟩ := List.mem_map.mp hx
    cases h : a.api_key == k <;> simp [h]

/-! Claim C7. -/

/-- Concrete state for C7: one credential for user `u` whose stored access
token is `A1` and whose stored refresh token is `R1`. -/
def stC7 : DBState :=
  { credentials := [{ user_id := "u", email := "e", display_name := "d",
                      access_token := "A1", refresh_token := some "R1",
                      token_expires_at := 900, is_active := true }],
    sessions := [], api_keys := [] }

/-- A token-endpoint refresh response that omits the refresh token. -/
def envC7 : RefreshHttpResult :=
  .response 200 { access_token := some "A2", refresh_token := none,
                  expires_in := some 3600 }

/-- Counterexample to C7 as stated: even when the token-endpoint response
omits a new refresh token — the claim's antecedent — the refresh path does
not overwrite the stored access token and expiry.  In fact it never updates
stored tokens at all: the call at auth_service.py:88 raises `TypeError`
(missing `system_credentials`) before the token endpoint is even contacted,
the refresh fails with HTTP 401, and the stored access token stays `A1`
instead of being overwritten with the response's `A2`. -/
theorem C7_counterexample :
    refresh_and_update stC7 "u" envC7 0 = .error () ∧
    stC7.credentials.map Credential.access_token = ["A1"] ∧ "A1" ≠ "A2" :=
  ⟨rfl, rfl, by decide⟩

/-- C7 amended: the refresh-token-retention frame property lives in
`update_tokens`: when it is called without a new refresh token
(`refresh_token = None`), every row of the user keeps its stored refresh
token while the access token and expiry are overwritten.  The repository's
refresh path itself, however, never performs any update: whatever the token
endpoint would answer, `refresh_and_update` fails (the provider call raises
`TypeError` for want of `system_credentials` before any request is made) —
the second conjunct. -/
theorem C7_update_tokens_retains_refresh (st : DBState) (uid a r : String)
    (e now : Int) (renv : RefreshHttpResult)
    (hr : ∀ c ∈ st.credentials, c.user_id = uid → c.refresh_token = some r) :
    (∀ c ∈ (update_tokens st uid a none e now).credentials, c.user_id = uid →
      c.refresh_token = some r ∧ c.access_token = a ∧ c.token_expires_at = now + e) ∧
    refresh_and_update st uid renv now = .error () := by
  refine ⟨?_, rfl⟩
  intro c hc hcid
  simp only [update_tokens, optStrTruthy, Bool.not_false, if_neg, Bool.false_eq_true,
    not_false_eq_true, reduceIte] at hc
  obtain ⟨c₀, hmem, rfl⟩ := List.mem_map.mp hc
  cases h : c₀.user_id == uid with
  | true =>
    have huid : c₀.user_id = uid := by simpa using h
    have := hr c₀ hmem huid
    simp [h, this]
  | false =>
    simp only [h, if_neg, Bool.false_eq_true, not_false_eq_true] at hcid
    exact absurd hcid (by simpa using (beq_eq_false_iff_ne.mp h))

/-- The credential row of `u` after the C7 witness update. -/
def credC7 : Credential :=
  ((update_tokens stC7 "u" "A2" none 3600 40).credentials).headD
    { user_id := "", email := "", display_name := "", access_token := "",
      refresh_token := none, token_expires_at := 0, is_active := false }

/-- Witness for the amended C7 at a concrete state. -/
theorem C7_update_tokens_retains_refresh_witness :
    (credC7.refresh_token = some "R1" ∧ credC7.access_token = "A2" ∧
      credC7.token_expires_at = 40 + 3600) ∧
    refresh_and_update stC7 "u" envC7 40 = .error () :=
  ⟨(C7_update_tokens_retains_refresh stC7 "u" "A2" "R1" 3600 40 envC7
      (by decide)).1 credC7 (by decide) (by decide),
   (C7_update_tokens_retains_refresh stC7 "u" "A2" "R1" 3600 40 envC7
      (by decide)).2⟩

/-! Claim C8. -/

/-- C8: evaluation of the code on every configuration.  First conjunct: the
service's `get_authorization_url` never builds a URL — the call at
auth_service.py:26 omits the required `system_credentials` parameter of
`_oauth_get_authorization_url` (outlook.py:44) and raises `TypeError` on
every call, contradicting the claim's "builds the authorization URL ...
pure".  Second conjunct: even the provider method underneath, were it
reachable, would use the fixed scope set but the hard-coded dify cloud
callback URI, ignoring the configured redirect URI — so the claim's "the
configured redirect URI" part could not hold either. -/
theorem C8_code_evaluation (client_id cfg : String) :
    get_authorization_url client_id cfg =
      .error (typeErrorMissingSystemCredentials "_oauth_get_authorization_url") ∧
    oauth_get_authorization_url client_id cfg =
      .ok { client_id := client_id, scopes := SCOPES,
            redirect_uri := DIFY_CALLBACK_URI } :=
  ⟨rfl, rfl⟩

/-! Claim C9. -/

/-- The hypothesis of C9: the current-user endpoint answered with a non-2xx
status (either as a returned response or as a raised `HTTPError`, which
`urllib` raises exactly for error statuses), or the call failed on the
network. -/
def notSuccessOrNetwork : HttpResult → Prop
  | .response c => c < 200 ∨ 300 ≤ c
  | .httpError _ => True
  | .netError => True

/-- C9: `validate_access_token` answers `false` for every non-2xx response of
the current-user endpoint (in particular 401) and for every network failure;
being a total boolean function it surfaces no exception to the caller. -/
theorem C9_validate_access_token_false (tok : Option String) (r : HttpResult)
    (h : notSuccessOrNetwork r) : validate_access_token tok r = false := by
  unfold validate_access_token validate_credentials
  cases ht : optStrTruthy tok with
  | false => simp
  | true =>
    cases r with
    | response c =>
      have hc : c ≠ 200 := by
        rcases h with h1 | h1 <;> omega
      simp [hc]
    | httpError c => by_cases hc : c = 401 <;> simp [hc]
    | netError => simp

/-- Witness for C9 at the 401 `HTTPError` named by the claim. -/
theorem C9_validate_access_token_false_witness :
    notSuccessOrNetwork (.httpError 401) ∧
      validate_access_token (some "T") (.httpError 401) = false :=
  ⟨trivial, C9_validate_access_token_false (some "T") (.httpError 401) trivial⟩

/-! Claim C4. -/

/-- C4: validating an expired session (one the join of database.py:185-190
actually finds: the session is active and its user's credential is active)
returns absent and soft-deactivates the session; the repeated call also
returns absent and leaves the state unchanged.  Deactivating a credential is
impossible through the store's API (no operation ever sets
`user_credentials.is_active` to false), so the join hypothesis holds for
every live session in every reachable state. -/
theorem C4_expired_session_lazy_cleanup (st : DBState) (tok : String) (now : Int)
    (s : Session) (u : Credential)
    (hjoin : findSessionJoin st tok = some (s, u)) (hexp : s.expires_at < now) :
    validate_session st tok now = (none, invalidate_session st tok) ∧
    (∀ s' ∈ (invalidate_session st tok).sessions,
        s'.session_token = tok → s'.is_active = false) ∧
    validate_session (invalidate_session st tok) tok now =
      (none, invalidate_session st tok) := by
  refine ⟨?_, ?_, ?_⟩
  · simp [validate_session, hjoin, hexp]
  · intro s' hs' htok
    simp only [invalidate_session] at hs'
    obtain ⟨s₀, _, rfl⟩ := List.mem_map.mp hs'
    cases h : s₀.session_token == tok with
    | true => simp [h]
    | false =>
      simp only [h, if_neg, Bool.false_eq_true, not_false_eq_true] at htok
      exact absurd htok (by simpa using (beq_eq_false_iff_ne.mp h))
  · have hnone : ((invalidate_session st tok).sessions.find?
        (fun s2 => s2.session_token == tok && s2.is_active)) = none := by
      rw [List.find?_eq_none]
      intro x hx
      simp only [invalidate_session] at hx
      obtain ⟨s₀, _, rfl⟩ := List.mem_map.mp hx
      cases h : s₀.session_token == tok with
      | true => simp [h]
      | false => simp [h]
    simp [validate_session, findSessionJoin, hnone]

/-- Concrete state for the C4 witness: an active session `S` of an active
user `u`, already past its `expires_at`. -/
def stC4 : DBState :=
  { credentials := [{ user_id := "u", email := "e", display_name := "d",
                      access_token := "AT", refresh_token := some "RT",
                      token_expires_at := 100, is_active := true }],
    sessions := [{ session_token := "S", user_id := "u", expires_at := 5,
                   is_active := true }],
    api_keys := [] }

/-- Witness for C4: both validation calls at the concrete expired session. -/
theorem C4_expired_session_lazy_cleanup_witness :
    validate_session stC4 "S" 10 = (none, invalidate_session stC4 "S") ∧
    validate_session (invalidate_session stC4 "S") "S" 10 =
      (none, invalidate_session stC4 "S") :=
  ⟨(C4_expired_session_lazy_cleanup stC4 "S" 10 _ _ rfl (by decide)).1,
   (C4_expired_session_lazy_cleanup stC4 "S" 10 _ _ rfl (by decide)).2.2⟩

/-! Claim C2. -/

/-- Concrete state for C2: an active session `S` of active user `u1` whose
stored access token `AT` expires at 100000 — far more than 5 minutes after
`now = 0`. -/
def stC2 : DBState :=
  { credentials := [{ user_id := "u1", email := "e", display_name := "d",
                      access_token := "AT", refresh_token := some "RT",
                      token_expires_at := 100000, is_active := true }],
    sessions := [{ session_token := "S", user_id := "u1", expires_at := 200000,
                   is_active := true }],
    api_keys := [] }

/-- A token endpoint that would answer any refresh call successfully. -/
def envC2 : RefreshHttpResult :=
  .response 200 { access_token := some "NA", refresh_token := some "NR",
                  expires_in := some 3600 }

/-- Evaluation of the code at C2's failing input: a request with a valid
session whose stored token has far more than 5 minutes of validity left.
The claim (and dependencies.py's own docstring) says the stored access token
`AT` is returned; the code returns `None`, because the user data resolved by
`validate_session` carries no `refresh_token` key and the guard at
dependencies.py:56 bails out. -/
theorem C2_code_evaluation :
    (get_access_token_with_refresh stC2 (some "S") 0 envC2).1 = .ok none ∧
    (300 : Int) < 100000 - 0 :=
  ⟨rfl, by decide⟩

/-! Claim C3. -/

/-- Shape of a successful `validate_session` result: it is always the
five-key projection `session_user_dict` of some joined row. -/
lemma validate_session_some (st : DBState) (tok : String) (now : Int)
    (d : List (String × PyVal)) (st₂ : DBState)
    (h : validate_session st tok now = (some d, st₂)) :
    ∃ s u, d = session_user_dict s u := by
  unfold validate_session at h
  cases hj : findSessionJoin st tok with
  | none => rw [hj] at h; simp at h
  | some su =>
    obtain ⟨s, u⟩ := su
    rw [hj] at h
    by_cases he : s.expires_at < now
    · simp [he] at h
    · simp only [he, if_neg, not_false_eq_true, reduceIte, Prod.mk.injEq,
        Option.some.injEq] at h
      exact ⟨s, u, h.1.symm⟩

/-- The projection returned by `validate_session` has no `refresh_token`
key at all. -/
lemma session_dict_no_refresh (s : Session) (u : Credential) :
    dictHasKey (session_user_dict s u) "refresh_token" = false := rfl

/-- Looking `refresh_token` up in the projection yields Python `None`. -/
lemma session_dict_refresh_vnone (s : Session) (u : Credential) :
    dictGet (session_user_dict s u) "refresh_token" = PyVal.vnone := rfl

/-- C3: the user data resolved from a session never contains a
`refresh_token` field, and consequently `get_access_token_with_refresh`
returns absent (`None`) for every session-authenticated request — whatever
the state, the clock, and however the token endpoint would have answered. -/
theorem C3_session_requests_get_no_token (st : DBState) (tok : String)
    (now : Int) (renv : RefreshHttpResult) :
    ((validate_session st tok now).1.all
        (fun d => !(dictHasKey d "refresh_token"))) = true ∧
    (get_access_token_with_refresh st (some tok) now renv).1 = .ok none := by
  rcases hv : validate_session st tok now with ⟨od, st'⟩
  cases od with
  | none =>
    refine ⟨by simp [hv], ?_⟩
    simp [get_access_token_with_refresh, hv]
  | some d =>
    obtain ⟨s, u, rfl⟩ := validate_session_some st tok now d st' hv
    refine ⟨by simp [hv, session_dict_no_refresh], ?_⟩
    simp [get_access_token_with_refresh, hv, session_dict_refresh_vnone,
      PyVal.truthy]

/-! Claim C1. -/

/-- C1: evaluation of the code for every input.  `exchange_code_for_tokens`
fails unconditionally: its first step, the provider call at
auth_service.py:41, omits the required `system_credentials` parameter of
`_oauth_get_credentials` (outlook.py:58-60) and raises `TypeError` before
any token exchange, profile fetch or database write — so no UserCredential
is ever persisted and no Session is ever created, whatever the code, the
token response, the profile response or the clock. -/
theorem C1_code_evaluation (st : DBState) (code : Option String)
    (resp : TokenResponse) (profile : ProfileResult) (sTok : String) (now : Int) :
    exchange_code_for_tokens st code resp profile sTok now =
      .error (typeErrorMissingSystemCredentials "_oauth_get_credentials") := rfl

/-! Claim C10. -/

/-- The antecedent of C10: the profile fetch failed — the resource API
answered with a non-200 status, or the request failed on the network. -/
def profileFetchFails : ProfileResult → Prop
  | .status c _ => c ≠ 200
  | .netError => True

/-- A failed profile fetch yields the placeholder identity. -/
lemma get_user_info_fails (p : ProfileResult) (h : profileFetchFails p) :
    get_user_info p = placeholder_user_info := by
  cases p with
  | status c body =>
    simp only [profileFetchFails] at h
    simp [get_user_info, h]
  | netError => rfl

/-- The `user_id` the code derives from the placeholder identity: the
placeholder has no `id` and no `userPrincipalName`, so the derivation falls
through to `''.split('@')[0]`, the empty string. -/
lemma derive_user_id_placeholder : derive_user_id placeholder_user_info = "" := rfl

/-- A well-formed provider token response, showing that nothing about the
response rescues the exchange. -/
def respC10 : TokenResponse :=
  { access_token := some "AT2", refresh_token := some "RT2", expires_in := some 3600 }

/-- A failed profile fetch (HTTP 500): the claim's antecedent. -/
def profC10 : ProfileResult := .status 500 []

/-- C10: evaluation of the code at the claim's scenario — a valid code whose
token response is well-formed, with the profile fetch failing (HTTP 500, a
`profileFetchFails` input).  The claim says `exchange_code_for_tokens` does
not fail and persists the placeholder identity; in fact the exchange raises
`TypeError` at the provider call (auth_service.py:41, missing
`system_credentials`) before the token exchange — and therefore before the
profile fetch whose failure the claim is about — so it fails on this input
and persists nothing.  (The placeholder machinery itself exists in
`get_user_info` but is unreachable.) -/
theorem C10_code_evaluation :
    profileFetchFails profC10 ∧
    exchange_code_for_tokens dbEmpty (some "abc123") respC10 profC10 "S2" 0 =
      .error (typeErrorMissingSystemCredentials "_oauth_get_credentials") :=
  ⟨show (500 : Int) ≠ 200 by decide, rfl⟩

end OutlookGraph
